import Mathlib

/-!
Shallow embedding of the DAIO reward system, from the two source files
daio_reward_system.py and quantum_ai_utils.py.

Modelling conventions:
- External services (the Solana RPC client, the Anthropic LLM API, the
  qiskit Aer simulator) are modelled by explicit parameters: a quantum
  measurement is an explicit outcome value constrained by a possibility
  predicate derived from the circuit, and a fallible external call is an
  Except value.
- Python floats are modelled as rationals.
- Python strings in the interactive command loop are modelled as lists of
  code points (List Nat), matching the code-point view that ord, lower and
  strip operate on; only the ASCII behaviour of lower and strip is modelled,
  which covers every character the CLI commands and base58 wallet
  addresses use.
-/

deriving instance DecidableEq for Except

namespace DAIO

/-! ## quantum_ai_utils.py -/

/-- One run of the 4-qubit seed circuit of `QuantumAIUtils.generate_quantum_seed`.
The fields record the basis value each qubit holds after the per-character
gate layer (H or X), before the CNOT layer. A Hadamard qubit may collapse
to either value; an X qubit is forced to one; an unused qubit stays zero. -/
structure SeedOutcome where
  q0 : Bool
  q1 : Bool
  q2 : Bool
  q3 : Bool
deriving Repr, DecidableEq

/-- Which values qubit `i` can hold after the gate layer: the circuit walks
`wallet_address[:4]`, applying a Hadamard gate when `ord(char)` is even
(either value possible) and an X gate when it is odd (value forced to one);
a qubit with no character stays in state zero. -/
def qubitPossible (wallet_address : String) (i : Nat) (b : Bool) : Bool :=
  match (wallet_address.toList.take 4).get? i with
  | none => b == false
  | some c => if c.toNat % 2 == 0 then true else b == true

/-- All four qubits of an outcome are possible for the address. -/
def possibleInit (wallet_address : String) (o : SeedOutcome) : Bool :=
  qubitPossible wallet_address 0 o.q0 && qubitPossible wallet_address 1 o.q1 &&
  qubitPossible wallet_address 2 o.q2 && qubitPossible wallet_address 3 o.q3

/-- The CNOT layer of the seed circuit: cx(0,1), cx(1,2), cx(2,3) applied in
order, each flipping the target when the control is one. On basis states
this is the classical update below. -/
def entangle (o : SeedOutcome) : SeedOutcome :=
  let b1 := xor o.q1 o.q0
  let b2 := xor o.q2 b1
  let b3 := xor o.q3 b2
  ⟨o.q0, b1, b2, b3⟩

/-- Integer value of the measured bitstring, qubit 0 least significant,
as in the int(binary_result, 2) conversion. -/
def bitsToNat (o : SeedOutcome) : Nat :=
  (cond o.q3 8 0) + (cond o.q2 4 0) + (cond o.q1 2 0) + (cond o.q0 1 0)

/-- `QuantumAIUtils.generate_quantum_seed`: gate layer outcome `o`, CNOT
layer, single-shot measurement, binary-to-integer conversion. -/
def generate_quantum_seed (wallet_address : String) (o : SeedOutcome) : Nat :=
  bitsToNat (entangle o)

/-- `QuantumAIUtils.quantum_boost_multiplier`. The 100-shot simulation is
modelled by `countOnes`, the number of shots that measured 1 on the output
qubit; the rotation angles computed from `holding_days` and `quantum_seed`
shape only the distribution of that count, not the formula below, which is
prob_one = countOnes / 100 and result 1.0 + 0.5 * prob_one. -/
def quantum_boost_multiplier (holding_days : Int) (quantum_seed : Int)
    (countOnes : Nat) : ℚ :=
  let prob_one : ℚ := (countOnes : ℚ) / 100
  1 + (1/2) * prob_one

/-! ## daio_reward_system.py : reward calculation -/

/-- Reward tiers of `DAIORewardSystem.calculate_rewards`. -/
inductive Tier where
  | Bronze
  | Silver
  | Gold
  | Diamond
deriving Repr, DecidableEq

/-- The dict returned by `DAIORewardSystem.calculate_rewards`. -/
structure RewardResult where
  tier : Tier
  base_multiplier : ℚ
  quantum_boost : ℚ
  final_multiplier : ℚ
  holding_days : Int
  quantum_seed : Nat
deriving Repr, DecidableEq

/-- `DAIORewardSystem.calculate_rewards`: seed generation for the wallet,
then the top-down tier ladder, then the quantum boost applied
multiplicatively. The simulator runs are the parameters `seedO` (seed
circuit outcome) and `boostOnes` (count of 1-shots in the boost circuit). -/
def calculate_rewards (holding_duration_days : Int) (wallet_address : String)
    (seedO : SeedOutcome) (boostOnes : Nat) : RewardResult :=
  let quantum_seed := generate_quantum_seed wallet_address seedO
  let tb : Tier × ℚ :=
    if holding_duration_days ≥ 365 then (Tier.Diamond, 2)
    else if holding_duration_days ≥ 180 then (Tier.Gold, 3/2)
    else if holding_duration_days ≥ 90 then (Tier.Silver, 5/4)
    else (Tier.Bronze, 1)
  let quantum_boost := quantum_boost_multiplier holding_duration_days quantum_seed boostOnes
  let final_multiplier := tb.2 * quantum_boost
  { tier := tb.1
    base_multiplier := tb.2
    quantum_boost := quantum_boost
    final_multiplier := final_multiplier
    holding_days := holding_duration_days
    quantum_seed := quantum_seed }

/-! ## daio_reward_system.py : tracked-wallet set -/

/-- `DAIORewardSystem.add_wallet_to_track`: set.add. -/
def add_wallet_to_track (wallets_to_track : Finset String) (wallet_address : String) :
    Finset String :=
  insert wallet_address wallets_to_track

/-- `DAIORewardSystem.remove_wallet_to_track`: set.discard, which never
raises on a missing element. -/
def remove_wallet_to_track (wallets_to_track : Finset String) (wallet_address : String) :
    Finset String :=
  wallets_to_track.erase wallet_address

/-! ## daio_reward_system.py : holding lookup and batch check -/

/-- One entry of the holdings list built by
`DAIORewardSystem.get_token_holding_duration`. -/
structure Holding where
  token_account : String
  mint_address : String
  holding_duration_days : Int
  acquisition_date : String
deriving Repr, DecidableEq

/-- The dict returned by `DAIORewardSystem.get_token_holding_duration`:
either an error dict or the wallet with its holdings list. -/
inductive HoldingInfo where
  | error (msg : String)
  | data (wallet_address : String) (holdings : List Holding)
deriving Repr, DecidableEq

/-- A Python exception escaping into `check_all_wallets`: either an
exception raised by an external service, or a failed dictionary lookup. -/
inductive PyError where
  | external (msg : String)
  | keyError (key : String)
deriving Repr, DecidableEq

/-- Behaviour of the external services while one wallet is processed.
`fetch` is the combined result of the RPC calls inside
`get_token_holding_duration`: an exception, or no token accounts found
(the code returns its own error dict), or a holdings list. `llm` is the
Anthropic messages call, `sim` the Aer simulator run for the seed circuit,
`boostOnes` the 1-count of the 100-shot boost circuit. -/
structure WalletEnv where
  fetch : Except String (Option (List Holding))
  llm : Except String String
  sim : Except String SeedOutcome
  boostOnes : Nat

/-- `DAIORewardSystem.get_token_holding_duration`: every exception inside
is caught and turned into an error dict; an empty token-account answer
yields the no-accounts error dict. -/
def get_token_holding_duration (wallet_address : String) (env : WalletEnv) :
    HoldingInfo :=
  match env.fetch with
  | .error e => .error ("Error checking token holding duration: " ++ e)
  | .ok none => .error "No token accounts found for this wallet"
  | .ok (some hs) => .data wallet_address hs

/-- The dict returned by `QuantumAIUtils.analyze_holding_pattern`: the
quantum_confidence key is present only on the non-empty-holdings path. -/
structure Analysis where
  analysis : String
  quantum_confidence : Option ℚ
deriving Repr, DecidableEq

/-- `QuantumAIUtils.analyze_holding_pattern`: with no holdings it returns
at once, with only the analysis key; otherwise it calls the LLM and then
the seed generator (either may raise), and sets
quantum_confidence = seed % 100 / 100. -/
def analyze_holding_pattern (wallet_address : String) (holdings : List Holding)
    (llm : Except String String) (sim : Except String SeedOutcome) :
    Except String Analysis :=
  if holdings.isEmpty then
    .ok { analysis := "No holdings found to analyze.", quantum_confidence := none }
  else
    match llm with
    | .error e => .error e
    | .ok content =>
      match sim with
      | .error e => .error e
      | .ok o =>
        .ok { analysis := content
              quantum_confidence :=
                some (((generate_quantum_seed wallet_address o % 100 : Nat) : ℚ) / 100) }

/-- One line printed by `check_all_wallets`, kept as structured content. -/
inductive OutputLine where
  | checkingWallet (wallet : String)
  | errorLine (msg : String)
  | noTokens
  | aiAnalysis (analysis : String) (quantum_confidence : ℚ)
  | holdingReport (h : Holding) (r : RewardResult)
  | noWallets
deriving Repr, DecidableEq

/-- The body of the per-wallet loop of `DAIORewardSystem.check_all_wallets`.
An error dict from `get_token_holding_duration` and an empty holdings list
are printed and skipped with continue; the `analyze_holding_pattern` call,
the dictionary reads on its result, and the simulator run inside
`calculate_rewards` sit in no try block, so an exception there escapes as
an `Except.error`. -/
def processWallet (wallet : String) (env : WalletEnv) :
    Except PyError (List OutputLine) :=
  match get_token_holding_duration wallet env with
  | .error e => .ok [.checkingWallet wallet, .errorLine e]
  | .data wa hs =>
    if hs.isEmpty then .ok [.checkingWallet wallet, .noTokens]
    else
      match analyze_holding_pattern wa hs env.llm env.sim with
      | .error e => .error (.external e)
      | .ok a =>
        match a.quantum_confidence with
        | none => .error (.keyError "quantum_confidence")
        | some conf =>
          match env.sim with
          | .error e => .error (.external e)
          | .ok o =>
            .ok ([.checkingWallet wallet, .aiAnalysis a.analysis conf] ++
              hs.map (fun h =>
                .holdingReport h
                  (calculate_rewards h.holding_duration_days wallet o env.boostOnes)))

/-- The wallet loop of `check_all_wallets`, over one iteration order of the
tracked set: an exception from a wallet propagates at once, leaving the
remaining wallets unprocessed. -/
def runBatch : List String → (String → WalletEnv) → Except PyError (List OutputLine)
  | [], _ => .ok []
  | w :: ws, env =>
    match processWallet w (env w) with
    | .error e => .error e
    | .ok lines =>
      match runBatch ws env with
      | .error e => .error e
      | .ok rest => .ok (lines ++ rest)

/-- `DAIORewardSystem.check_all_wallets`: the empty-set early return, then
the wallet loop. -/
def check_all_wallets (wallets : List String) (env : String → WalletEnv) :
    Except PyError (List OutputLine) :=
  if wallets.isEmpty then .ok [.noWallets]
  else runBatch wallets env

/-! ## daio_reward_system.py : interactive command loop -/

/-- Code points of a string literal; Python strings are sequences of code
points and ord, lower, strip act on those. -/
def pyStr (s : String) : List Nat := s.toList.map Char.toNat

/-- ASCII whitespace, as stripped by str.strip on the CLI input. -/
def isPySpace (c : Nat) : Bool :=
  c == 32 || c == 9 || c == 10 || c == 13 || c == 11 || c == 12

/-- Python str.strip(): drop whitespace from both ends. -/
def pyStrip (s : List Nat) : List Nat :=
  ((s.dropWhile isPySpace).reverse.dropWhile isPySpace).reverse

/-- Python str.lower() on one ASCII code point. -/
def pyLowerChar (c : Nat) : Nat :=
  if 65 ≤ c ∧ c ≤ 90 then c + 32 else c

/-- Python str.lower() over the code points of a string. -/
def pyLower (s : List Nat) : List Nat := s.map pyLowerChar

/-- Effect of one dispatched command line of `main`. -/
inductive CmdEffect where
  | exitLoop
  | addWallet (wallet : List Nat)
  | removeWallet (wallet : List Nat)
  | listWallets
  | runCheck
  | invalid
deriving Repr, DecidableEq

/-- The dispatch of one iteration of the while loop in `main`:
command = input().strip().lower(), then the if/elif ladder; the add and
remove branches slice off the keyword and strip the rest. -/
def dispatchCommand (line : List Nat) : CmdEffect :=
  let command := pyLower (pyStrip line)
  if command = pyStr "exit" then .exitLoop
  else if command.take 4 = pyStr "add " then .addWallet (pyStrip (command.drop 4))
  else if command.take 7 = pyStr "remove " then .removeWallet (pyStrip (command.drop 7))
  else if command = pyStr "list" then .listWallets
  else if command = pyStr "check" then .runCheck
  else .invalid

/-! ## Helper lemmas -/

/-- The boost formula is at least one: the shot count is non-negative. -/
lemma one_le_boost (d s : Int) (k : Nat) : 1 ≤ quantum_boost_multiplier d s k := by
  unfold quantum_boost_multiplier
  have h0 : (0 : ℚ) ≤ (k : ℚ) / 100 := by positivity
  linarith

/-- The boost formula is at most 3/2 when at most 100 of the 100 shots
measure one. -/
lemma boost_le (d s : Int) (k : Nat) (hk : k ≤ 100) :
    quantum_boost_multiplier d s k ≤ 3/2 := by
  unfold quantum_boost_multiplier
  have hk' : (k : ℚ) ≤ 100 := by exact_mod_cast hk
  have h1 : (k : ℚ) / 100 ≤ 1 := by
    rw [div_le_one (by norm_num : (0 : ℚ) < 100)]
    exact hk'
  linarith

/-- The final multiplier field is the product of the base multiplier and
quantum boost fields. -/
lemma rewards_final_eq (d : Int) (a : String) (o : SeedOutcome) (k : Nat) :
    (calculate_rewards d a o k).final_multiplier =
      (calculate_rewards d a o k).base_multiplier *
        (calculate_rewards d a o k).quantum_boost := rfl

/-- The quantum boost field comes from `quantum_boost_multiplier` at the
generated seed. -/
lemma rewards_boost_eq (d : Int) (a : String) (o : SeedOutcome) (k : Nat) :
    (calculate_rewards d a o k).quantum_boost =
      quantum_boost_multiplier d ((generate_quantum_seed a o : Nat) : Int) k := rfl

/-- Diamond row of the tier ladder. -/
lemma tier_diamond (d : Int) (a : String) (o : SeedOutcome) (k : Nat) (h : 365 ≤ d) :
    (calculate_rewards d a o k).tier = Tier.Diamond ∧
      (calculate_rewards d a o k).base_multiplier = 2 := by
  simp only [calculate_rewards]
  split_ifs with h1 h2 h3
  all_goals first | exact ⟨rfl, rfl⟩ | (exfalso; omega)

/-- Gold row of the tier ladder. -/
lemma tier_gold (d : Int) (a : String) (o : SeedOutcome) (k : Nat)
    (h : 180 ≤ d) (h' : d < 365) :
    (calculate_rewards d a o k).tier = Tier.Gold ∧
      (calculate_rewards d a o k).base_multiplier = 3/2 := by
  simp only [calculate_rewards]
  split_ifs with h1 h2 h3
  all_goals first | exact ⟨rfl, rfl⟩ | (exfalso; omega)

/-- Silver row of the tier ladder. -/
lemma tier_silver (d : Int) (a : String) (o : SeedOutcome) (k : Nat)
    (h : 90 ≤ d) (h' : d < 180) :
    (calculate_rewards d a o k).tier = Tier.Silver ∧
      (calculate_rewards d a o k).base_multiplier = 5/4 := by
  simp only [calculate_rewards]
  split_ifs with h1 h2 h3
  all_goals first | exact ⟨rfl, rfl⟩ | (exfalso; omega)

/-- Bronze row of the tier ladder. -/
lemma tier_bronze (d : Int) (a : String) (o : SeedOutcome) (k : Nat) (h' : d < 90) :
    (calculate_rewards d a o k).tier = Tier.Bronze ∧
      (calculate_rewards d a o k).base_multiplier = 1 := by
  simp only [calculate_rewards]
  split_ifs with h1 h2 h3
  all_goals first | exact ⟨rfl, rfl⟩ | (exfalso; omega)

/-! ## Claims -/

/-- C1: for every integer holding_duration_days, calculate_rewards assigns
tier and base multiplier by the table evaluated top-down: days at least 365
gives Diamond with 2.0; days in [180,365) gives Gold with 1.5; days in
[90,180) gives Silver with 1.25; days in [0,90) gives Bronze with 1.0. -/
theorem C1_tier_table (d : Int) (a : String) (o : SeedOutcome) (k : Nat) :
    (365 ≤ d → (calculate_rewards d a o k).tier = Tier.Diamond ∧
      (calculate_rewards d a o k).base_multiplier = 2) ∧
    (180 ≤ d ∧ d < 365 → (calculate_rewards d a o k).tier = Tier.Gold ∧
      (calculate_rewards d a o k).base_multiplier = 3/2) ∧
    (90 ≤ d ∧ d < 180 → (calculate_rewards d a o k).tier = Tier.Silver ∧
      (calculate_rewards d a o k).base_multiplier = 5/4) ∧
    (0 ≤ d ∧ d < 90 → (calculate_rewards d a o k).tier = Tier.Bronze ∧
      (calculate_rewards d a o k).base_multiplier = 1) :=
  ⟨fun h => tier_diamond d a o k h,
   fun h => tier_gold d a o k h.1 h.2,
   fun h => tier_silver d a o k h.1 h.2,
   fun h => tier_bronze d a o k h.2⟩

/-- Witness for C1 at one concrete input per row of the table. -/
theorem C1_tier_table_witness :
    ((calculate_rewards 400 "w" ⟨true, true, true, true⟩ 50).tier = Tier.Diamond ∧
      (calculate_rewards 400 "w" ⟨true, true, true, true⟩ 50).base_multiplier = 2) ∧
    ((calculate_rewards 200 "w" ⟨true, true, true, true⟩ 50).tier = Tier.Gold ∧
      (calculate_rewards 200 "w" ⟨true, true, true, true⟩ 50).base_multiplier = 3/2) ∧
    ((calculate_rewards 100 "w" ⟨true, true, true, true⟩ 50).tier = Tier.Silver ∧
      (calculate_rewards 100 "w" ⟨true, true, true, true⟩ 50).base_multiplier = 5/4) ∧
    ((calculate_rewards 10 "w" ⟨true, true, true, true⟩ 50).tier = Tier.Bronze ∧
      (calculate_rewards 10 "w" ⟨true, true, true, true⟩ 50).base_multiplier = 1) :=
  ⟨(C1_tier_table 400 "w" ⟨true, true, true, true⟩ 50).1 (by norm_num),
   (C1_tier_table 200 "w" ⟨true, true, true, true⟩ 50).2.1 (by norm_num),
   (C1_tier_table 100 "w" ⟨true, true, true, true⟩ 50).2.2.1 (by norm_num),
   (C1_tier_table 10 "w" ⟨true, true, true, true⟩ 50).2.2.2 (by norm_num)⟩

/-- C2: for every holding_days, every quantum_seed and every 100-shot
measurement count between 0 and 100, quantum_boost_multiplier lies in the
closed interval [1.0, 1.5]. -/
theorem C2_boost_range (holding_days quantum_seed : Int) (countOnes : Nat)
    (hk : countOnes ≤ 100) :
    1 ≤ quantum_boost_multiplier holding_days quantum_seed countOnes ∧
      quantum_boost_multiplier holding_days quantum_seed countOnes ≤ 3/2 :=
  ⟨one_le_boost holding_days quantum_seed countOnes,
   boost_le holding_days quantum_seed countOnes hk⟩

/-- Witness for C2 at a concrete input. -/
theorem C2_boost_range_witness :
    1 ≤ quantum_boost_multiplier 400 9 50 ∧
      quantum_boost_multiplier 400 9 50 ≤ 3/2 :=
  C2_boost_range 400 9 50 (by norm_num)

/-- C3: the final_multiplier field always equals base_multiplier times
quantum_boost, and at 400 holding days the result is the Diamond tier with
base 2.0 and final multiplier in [2.0, 3.0]. -/
theorem C3_final_multiplier (d : Int) (a : String) (o : SeedOutcome) (k : Nat)
    (hk : k ≤ 100) :
    (calculate_rewards d a o k).final_multiplier =
      (calculate_rewards d a o k).base_multiplier *
        (calculate_rewards d a o k).quantum_boost ∧
    (d = 400 → (calculate_rewards d a o k).tier = Tier.Diamond ∧
      (calculate_rewards d a o k).base_multiplier = 2 ∧
      2 ≤ (calculate_rewards d a o k).final_multiplier ∧
      (calculate_rewards d a o k).final_multiplier ≤ 3) := by
  refine ⟨rewards_final_eq d a o k, fun hd => ?_⟩
  obtain ⟨ht, hb⟩ := tier_diamond d a o k (by omega)
  have h1 := one_le_boost d ((generate_quantum_seed a o : Nat) : Int) k
  have h2 := boost_le d ((generate_quantum_seed a o : Nat) : Int) k hk
  rw [← rewards_boost_eq d a o k] at h1 h2
  refine ⟨ht, hb, ?_, ?_⟩
  · rw [rewards_final_eq d a o k, hb]; linarith
  · rw [rewards_final_eq d a o k, hb]; linarith

/-- Witness for C3 at a concrete input. -/
theorem C3_final_multiplier_witness :
    (calculate_rewards 400 "w" ⟨true, true, true, true⟩ 50).final_multiplier =
      (calculate_rewards 400 "w" ⟨true, true, true, true⟩ 50).base_multiplier *
        (calculate_rewards 400 "w" ⟨true, true, true, true⟩ 50).quantum_boost ∧
    (calculate_rewards 400 "w" ⟨true, true, true, true⟩ 50).tier = Tier.Diamond ∧
    (calculate_rewards 400 "w" ⟨true, true, true, true⟩ 50).base_multiplier = 2 ∧
    2 ≤ (calculate_rewards 400 "w" ⟨true, true, true, true⟩ 50).final_multiplier ∧
    (calculate_rewards 400 "w" ⟨true, true, true, true⟩ 50).final_multiplier ≤ 3 :=
  ⟨(C3_final_multiplier 400 "w" ⟨true, true, true, true⟩ 50 (by norm_num)).1,
   (C3_final_multiplier 400 "w" ⟨true, true, true, true⟩ 50 (by norm_num)).2 rfl⟩

/-- C8: negative durations classify exactly like 0 days: tier Bronze with
base multiplier 1.0, and the classification is total over the integers
(the embedding is a total function). -/
theorem C8_negative_days (d : Int) (a : String) (o : SeedOutcome) (k : Nat)
    (hd : d < 0) :
    (calculate_rewards d a o k).tier = (calculate_rewards 0 a o k).tier ∧
    (calculate_rewards d a o k).base_multiplier =
      (calculate_rewards 0 a o k).base_multiplier ∧
    (calculate_rewards d a o k).tier = Tier.Bronze ∧
    (calculate_rewards d a o k).base_multiplier = 1 := by
  obtain ⟨htd, hbd⟩ := tier_bronze d a o k (by omega)
  obtain ⟨ht0, hb0⟩ := tier_bronze 0 a o k (by omega)
  exact ⟨htd.trans ht0.symm, hbd.trans hb0.symm, htd, hbd⟩

/-- Witness for C8 at a concrete negative duration. -/
theorem C8_negative_days_witness :
    (calculate_rewards (-5) "w" ⟨true, true, true, true⟩ 50).tier =
      (calculate_rewards 0 "w" ⟨true, true, true, true⟩ 50).tier ∧
    (calculate_rewards (-5) "w" ⟨true, true, true, true⟩ 50).base_multiplier =
      (calculate_rewards 0 "w" ⟨true, true, true, true⟩ 50).base_multiplier ∧
    (calculate_rewards (-5) "w" ⟨true, true, true, true⟩ 50).tier = Tier.Bronze ∧
    (calculate_rewards (-5) "w" ⟨true, true, true, true⟩ 50).base_multiplier = 1 :=
  C8_negative_days (-5) "w" ⟨true, true, true, true⟩ 50 (by norm_num)

/-- C6: for every wallet address and every possible single-shot outcome of
the 4-qubit seed circuit, generate_quantum_seed returns an integer in
[0, 15]. -/
theorem C6_seed_range (a : String) (o : SeedOutcome)
    (h : possibleInit a o = true) :
    generate_quantum_seed a o ≤ 15 := by
  rcases o with ⟨q0, q1, q2, q3⟩
  cases q0 <;> cases q1 <;> cases q2 <;> cases q3 <;>
    simp [generate_quantum_seed, entangle, bitsToNat]

/-- Witness for C6 at a concrete address and possible outcome. -/
theorem C6_seed_range_witness :
    possibleInit "GF6A" ⟨true, false, false, true⟩ = true ∧
      generate_quantum_seed "GF6A" ⟨true, false, false, true⟩ ≤ 15 :=
  ⟨by decide, C6_seed_range "GF6A" ⟨true, false, false, true⟩ (by decide)⟩

/-- C5: the tracked-wallet operations have set semantics: add inserts if
absent and is a no-op if present, so after two adds the set holds the
address exactly once; remove deletes if present and is an errorless no-op
if absent, and afterwards the address is not in the set. -/
theorem C5_set_semantics (s : Finset String) (X Y : String) :
    (X ∈ add_wallet_to_track s X) ∧
    (X ∈ s → add_wallet_to_track s X = s) ∧
    ((add_wallet_to_track (add_wallet_to_track s X) X).val.count X = 1) ∧
    (Y ∉ s → remove_wallet_to_track s Y = s) ∧
    (Y ∉ remove_wallet_to_track s Y) := by
  refine ⟨Finset.mem_insert_self X s, fun h => Finset.insert_eq_self.mpr h, ?_,
    fun h => Finset.erase_eq_self.mpr h, Finset.not_mem_erase Y s⟩
  unfold add_wallet_to_track
  rw [Finset.insert_idem]
  exact Multiset.count_eq_one_of_mem (insert X s).nodup
    (Finset.mem_val.mpr (Finset.mem_insert_self X s))

/-- Witness for C5 at the concrete scenario add ABC, add ABC, remove XYZ. -/
theorem C5_set_semantics_witness :
    ("ABC" ∈ add_wallet_to_track {"ABC"} "ABC") ∧
    (add_wallet_to_track {"ABC"} "ABC" = {"ABC"}) ∧
    ((add_wallet_to_track (add_wallet_to_track {"ABC"} "ABC") "ABC").val.count "ABC" = 1) ∧
    (remove_wallet_to_track {"ABC"} "XYZ" = {"ABC"}) ∧
    ("XYZ" ∉ remove_wallet_to_track {"ABC"} "XYZ") := by
  obtain ⟨h1, h2, h3, h4, h5⟩ := C5_set_semantics {"ABC"} "ABC" "XYZ"
  exact ⟨h1, h2 (by simp), h3, h4 (by simp), h5⟩

/-- With every character of the first four forced by an X gate (odd code
point) or absent, a possible outcome is fully determined. -/
lemma qubit_forced (a : String) (i : Nat) (b : Bool)
    (ha : (a.toList.take 4).all (fun c => c.toNat % 2 == 1) = true)
    (hb : qubitPossible a i b = true) :
    b = ((a.toList.take 4).get? i).isSome := by
  unfold qubitPossible at hb
  cases hget : (a.toList.take 4).get? i with
  | none =>
    rw [hget] at hb
    simp only [beq_iff_eq] at hb
    simp [hb]
  | some c =>
    rw [hget] at hb
    have hc : c.toNat % 2 = 1 := by
      have hmem := List.get?_mem hget
      have := List.all_eq_true.mp ha c hmem
      simpa using this
    simp [hc] at hb
    simp [hb]

/-- C7 counterexample: the claim that generate_quantum_seed is
deterministic per wallet address fails at the address 0000, whose even
code points put every qubit behind a Hadamard gate: both the all-zero and
the q0-one collapse are possible single-shot outcomes and they produce
seeds 0 and 15. -/
theorem C7_counterexample :
    possibleInit "0000" ⟨false, false, false, false⟩ = true ∧
    possibleInit "0000" ⟨true, false, false, false⟩ = true ∧
    generate_quantum_seed "0000" ⟨false, false, false, false⟩ ≠
      generate_quantum_seed "0000" ⟨true, false, false, false⟩ := by
  refine ⟨by decide, by decide, by decide⟩

/-- C7 amended: generate_quantum_seed is deterministic for a wallet
address whose first four characters all have odd code points (every gate
in the preparation layer is then an X gate): any two possible single-shot
outcomes give equal seeds. For other addresses the seed may differ
between invocations. -/
theorem C7_deterministic_when_odd (a : String)
    (ha : (a.toList.take 4).all (fun c => c.toNat % 2 == 1) = true)
    (o1 o2 : SeedOutcome)
    (h1 : possibleInit a o1 = true) (h2 : possibleInit a o2 = true) :
    generate_quantum_seed a o1 = generate_quantum_seed a o2 := by
  rcases o1 with ⟨p0, p1, p2, p3⟩
  rcases o2 with ⟨r0, r1, r2, r3⟩
  unfold possibleInit at h1 h2
  simp only [Bool.and_eq_true] at h1 h2
  obtain ⟨⟨⟨a1, b1⟩, c1⟩, d1⟩ := h1
  obtain ⟨⟨⟨a2, b2⟩, c2⟩, d2⟩ := h2
  have e0 := (qubit_forced a 0 p0 ha a1).trans (qubit_forced a 0 r0 ha a2).symm
  have e1 := (qubit_forced a 1 p1 ha b1).trans (qubit_forced a 1 r1 ha b2).symm
  have e2 := (qubit_forced a 2 p2 ha c1).trans (qubit_forced a 2 r2 ha c2).symm
  have e3 := (qubit_forced a 3 p3 ha d1).trans (qubit_forced a 3 r3 ha d2).symm
  subst e0 e1 e2 e3
  rfl

/-- Witness for the amended C7 at a concrete all-odd address. -/
theorem C7_deterministic_when_odd_witness :
    generate_quantum_seed "1111" ⟨true, true, true, true⟩ =
      generate_quantum_seed "1111" ⟨true, true, true, true⟩ :=
  C7_deterministic_when_odd "1111" (by decide) ⟨true, true, true, true⟩
    ⟨true, true, true, true⟩ (by decide) (by decide)

/-- Lowering an ASCII code point does not change whether it is
whitespace. -/
lemma isPySpace_pyLowerChar (c : Nat) : isPySpace (pyLowerChar c) = isPySpace c := by
  unfold pyLowerChar
  split_ifs with h
  · have h1 : isPySpace (c + 32) = false := by
      simp only [isPySpace, Bool.or_eq_false_iff, beq_eq_false_iff_ne, ne_eq]
      omega
    have h2 : isPySpace c = false := by
      simp only [isPySpace, Bool.or_eq_false_iff, beq_eq_false_iff_ne, ne_eq]
      omega
    rw [h1, h2]
  · rfl

/-- Lowering commutes with dropping leading whitespace. -/
lemma pyLower_dropWhile (l : List Nat) :
    (pyLower l).dropWhile isPySpace = pyLower (l.dropWhile isPySpace) := by
  unfold pyLower
  rw [List.dropWhile_map]
  rw [show (isPySpace ∘ pyLowerChar) = isPySpace from funext isPySpace_pyLowerChar]

/-- Lowering commutes with reversal. -/
lemma pyLower_reverse (l : List Nat) :
    (pyLower l).reverse = pyLower l.reverse := by
  unfold pyLower
  rw [List.map_reverse]

/-- Lowering commutes with strip. -/
lemma pyStrip_pyLower (l : List Nat) :
    pyStrip (pyLower l) = pyLower (pyStrip l) := by
  unfold pyStrip
  rw [pyLower_dropWhile, pyLower_reverse, pyLower_dropWhile, pyLower_reverse]

/-- Lowering commutes with drop. -/
lemma pyLower_drop (l : List Nat) (n : Nat) :
    (pyLower l).drop n = pyLower (l.drop n) := by
  unfold pyLower
  rw [List.map_drop]

/-- The lowering map never produces an ASCII uppercase code point. -/
lemma pyLowerChar_not_upper (c : Nat) : ¬(65 ≤ pyLowerChar c ∧ pyLowerChar c ≤ 90) := by
  unfold pyLowerChar
  split_ifs with h <;> omega

/-- No element of a lowered string is an ASCII uppercase code point. -/
lemma mem_pyLower_not_upper (z : List Nat) :
    ∀ c ∈ pyLower z, ¬(65 ≤ c ∧ c ≤ 90) := by
  intro c hc
  obtain ⟨c', _, rfl⟩ := List.mem_map.mp hc
  exact pyLowerChar_not_upper c'

/-- C9: the command loop lowercases the whole input line before dispatch,
so the address stored by an add command, and the one looked up by a remove
command, is the lowercased form of the typed address; a stored or
looked-up address never contains an ASCII uppercase code point. -/
theorem C9_cli_lowercases (line : List Nat) :
    (∀ w, dispatchCommand line = CmdEffect.addWallet w →
      w = pyLower (pyStrip ((pyStrip line).drop 4)) ∧
        ∀ c ∈ w, ¬(65 ≤ c ∧ c ≤ 90)) ∧
    (∀ w, dispatchCommand line = CmdEffect.removeWallet w →
      w = pyLower (pyStrip ((pyStrip line).drop 7)) ∧
        ∀ c ∈ w, ¬(65 ≤ c ∧ c ≤ 90)) := by
  constructor <;> intro w h <;> simp only [dispatchCommand] at h <;> split_ifs at h <;>
    cases h <;>
    rw [pyLower_drop, pyStrip_pyLower] <;>
    exact ⟨rfl, mem_pyLower_not_upper _⟩

/-- Witness for C9 at the concrete line with spaces and uppercase. -/
theorem C9_cli_lowercases_witness :
    pyStr "walletx" = pyLower (pyStrip ((pyStrip (pyStr "  ADD WalletX  ")).drop 4)) ∧
    (∀ c ∈ pyStr "walletx", ¬(65 ≤ c ∧ c ≤ 90)) :=
  (C9_cli_lowercases (pyStr "  ADD WalletX  ")).1 (pyStr "walletx") (by decide)

/-- Every exception escaping the per-wallet body comes from an external
call; the dictionary-lookup error is unreachable. -/
lemma processWallet_error_external (w : String) (env : WalletEnv) (er : PyError)
    (h : processWallet w env = Except.error er) : ∃ msg, er = PyError.external msg := by
  obtain ⟨fetch, llm, sim, boostOnes⟩ := env
  cases fetch with
  | error e => simp [processWallet, get_token_holding_duration] at h
  | ok v =>
    cases v with
    | none => simp [processWallet, get_token_holding_duration] at h
    | some hs =>
      cases hs with
      | nil => simp [processWallet, get_token_holding_duration] at h
      | cons x xs =>
        cases llm with
        | error e =>
          simp [processWallet, get_token_holding_duration, analyze_holding_pattern] at h
          exact ⟨e, h.symm⟩
        | ok content =>
          cases sim with
          | error e =>
            simp [processWallet, get_token_holding_duration, analyze_holding_pattern] at h
            exact ⟨e, h.symm⟩
          | ok o =>
            simp [processWallet, get_token_holding_duration, analyze_holding_pattern] at h

/-- Every exception escaping the wallet loop comes from an external call. -/
lemma runBatch_error_external (wallets : List String) (env : String → WalletEnv)
    (er : PyError) (h : runBatch wallets env = Except.error er) :
    ∃ msg, er = PyError.external msg := by
  induction wallets with
  | nil => simp [runBatch] at h
  | cons w ws ih =>
    unfold runBatch at h
    cases hp : processWallet w (env w) with
    | error e =>
      simp only [hp] at h
      obtain ⟨m, hm⟩ := processWallet_error_external w (env w) e hp
      injection h with h'
      subst h'
      exact ⟨m, hm⟩
    | ok lines =>
      simp only [hp] at h
      cases hr : runBatch ws env with
      | error e2 =>
        simp only [hr] at h
        injection h with h'
        subst h'
        exact ih hr
      | ok rest => simp [hr] at h

/-- On the non-empty path a successful analysis carries the
quantum_confidence key with the value seed % 100 / 100, inside [0, 1). -/
lemma analyze_conf_some (wa : String) (hs : List Holding)
    (llm : Except String String) (sim : Except String SeedOutcome) (a : Analysis)
    (hne : hs.isEmpty = false)
    (ha : analyze_holding_pattern wa hs llm sim = Except.ok a) :
    ∃ q, a.quantum_confidence = some q ∧ 0 ≤ q ∧ q < 1 := by
  unfold analyze_holding_pattern at ha
  rw [hne] at ha
  simp only [Bool.false_eq_true, if_false] at ha
  cases hl : llm with
  | error e => rw [hl] at ha; cases ha
  | ok content =>
    cases hsim : sim with
    | error e => rw [hl, hsim] at ha; cases ha
    | ok o =>
      rw [hl, hsim] at ha
      injection ha with ha'
      subst ha'
      refine ⟨((generate_quantum_seed wa o % 100 : Nat) : ℚ) / 100, rfl, by positivity, ?_⟩
      have hlt : generate_quantum_seed wa o % 100 < 100 := Nat.mod_lt _ (by norm_num)
      have hq : ((generate_quantum_seed wa o % 100 : Nat) : ℚ) < 100 := by exact_mod_cast hlt
      rw [div_lt_one (by norm_num : (0 : ℚ) < 100)]
      exact hq

/-- The per-wallet body succeeds whenever the LLM and simulator calls
succeed, and a fetch failure message is surfaced in its output lines. -/
lemma processWallet_ok (w : String) (env : WalletEnv)
    (hl : ∃ c, env.llm = Except.ok c) (hsim : ∃ o, env.sim = Except.ok o) :
    ∃ lines, processWallet w env = Except.ok lines ∧
      ∀ e, env.fetch = Except.error e →
        OutputLine.errorLine ("Error checking token holding duration: " ++ e) ∈ lines := by
  obtain ⟨fetch, llm, sim, boostOnes⟩ := env
  obtain ⟨c, hc⟩ := hl
  obtain ⟨o, ho⟩ := hsim
  cases llm with
  | error e => exact absurd hc (by simp)
  | ok c' =>
    cases sim with
    | error e => exact absurd ho (by simp)
    | ok o' =>
      clear hc ho
      cases fetch with
      | error e =>
        refine ⟨_, rfl, ?_⟩
        intro e' he'
        simp only [Except.error.injEq] at he'
        subst he'
        simp [processWallet, get_token_holding_duration]
      | ok v =>
        cases v with
        | none => exact ⟨_, rfl, fun e' he' => by simp at he'⟩
        | some hs =>
          cases hs with
          | nil => exact ⟨_, rfl, fun e' he' => by simp at he'⟩
          | cons x xs => exact ⟨_, rfl, fun e' he' => by simp at he'⟩

/-- The wallet loop succeeds whenever the LLM and simulator calls of every
wallet succeed, surfacing each fetch failure. -/
lemma runBatch_ok (wallets : List String) (env : String → WalletEnv)
    (hok : ∀ w ∈ wallets,
      (∃ c, (env w).llm = Except.ok c) ∧ (∃ o, (env w).sim = Except.ok o)) :
    ∃ lines, runBatch wallets env = Except.ok lines ∧
      ∀ w ∈ wallets, ∀ e, (env w).fetch = Except.error e →
        OutputLine.errorLine ("Error checking token holding duration: " ++ e) ∈ lines := by
  induction wallets with
  | nil => exact ⟨[], rfl, by simp⟩
  | cons w ws ih =>
    obtain ⟨l1, h1, hs1⟩ := processWallet_ok w (env w) (hok w (by simp)).1 (hok w (by simp)).2
    obtain ⟨l2, h2, hs2⟩ := ih (fun w' hw' => hok w' (by simp [hw']))
    refine ⟨l1 ++ l2, ?_, ?_⟩
    · simp only [runBatch, h1, h2]
    · intro w' hw' e he
      rcases List.mem_cons.mp hw' with rfl | hmem
      · exact List.mem_append.mpr (Or.inl (hs1 e he))
      · exact List.mem_append.mpr (Or.inr (hs2 w' hmem e he))

/-- Environment for the C4 counterexample: walletA fetches fine but its
LLM call raises; walletB would process fine on its own. -/
def cex4Env : String → WalletEnv := fun w =>
  if w = "walletA" then
    { fetch := Except.ok (some [⟨"acct", "mint", 400, "2024-01-01"⟩])
      llm := Except.error "LLM service unavailable"
      sim := Except.ok ⟨true, true, true, true⟩
      boostOnes := 50 }
  else
    { fetch := Except.ok (some [⟨"acct2", "mint2", 10, "2024-01-01"⟩])
      llm := Except.ok "fine"
      sim := Except.ok ⟨true, true, true, true⟩
      boostOnes := 50 }

/-- C4 counterexample: with two tracked wallets where the first fetches
holdings but its LLM analysis call raises, the batch evaluates to that
propagated exception, so the failure is not caught and walletB is never
processed, even though walletB on its own would have produced output. -/
theorem C4_counterexample :
    check_all_wallets ["walletA", "walletB"] cex4Env =
      Except.error (PyError.external "LLM service unavailable") ∧
    processWallet "walletB" (cex4Env "walletB") =
      Except.ok [OutputLine.checkingWallet "walletB",
        OutputLine.aiAnalysis "fine" (1/20),
        OutputLine.holdingReport ⟨"acct2", "mint2", 10, "2024-01-01"⟩
          (calculate_rewards 10 "walletB" ⟨true, true, true, true⟩ 50)] := by
  constructor
  · decide
  · have hB : cex4Env "walletB" =
        { fetch := Except.ok (some [⟨"acct2", "mint2", 10, "2024-01-01"⟩])
          llm := Except.ok "fine"
          sim := Except.ok ⟨true, true, true, true⟩
          boostOnes := 50 } := rfl
    rw [hB]
    norm_num [processWallet, get_token_holding_duration, analyze_holding_pattern,
      generate_quantum_seed, entangle, bitsToNat]

/-- C4 amended: a failure raised by the RPC lookups inside
get_token_holding_duration is caught there, its message surfaced to the
output, the wallet skipped and the remaining wallets still processed; but
a failure of the language-model or quantum-simulator call is not caught in
check_all_wallets and aborts the batch, so the batch is guaranteed to
finish only when those calls succeed for every wallet. -/
theorem C4_rpc_failures_isolated (wallets : List String) (env : String → WalletEnv)
    (hok : ∀ w ∈ wallets,
      (∃ c, (env w).llm = Except.ok c) ∧ (∃ o, (env w).sim = Except.ok o)) :
    ∃ lines, check_all_wallets wallets env = Except.ok lines ∧
      ∀ w ∈ wallets, ∀ e, (env w).fetch = Except.error e →
        OutputLine.errorLine ("Error checking token holding duration: " ++ e) ∈ lines := by
  unfold check_all_wallets
  cases wallets with
  | nil => exact ⟨[.noWallets], rfl, by simp⟩
  | cons w ws =>
    rw [if_neg (by simp)]
    exact runBatch_ok (w :: ws) env hok

/-- Environment for the C4 witness: the first wallet has a failing RPC
fetch, the second fetches fine; LLM and simulator succeed everywhere. -/
def env4 : String → WalletEnv := fun w =>
  if w = "w1" then
    { fetch := Except.error "boom"
      llm := Except.ok "ok"
      sim := Except.ok ⟨true, true, true, true⟩
      boostOnes := 50 }
  else
    { fetch := Except.ok (some [])
      llm := Except.ok "ok"
      sim := Except.ok ⟨true, true, true, true⟩
      boostOnes := 50 }

/-- Witness for the amended C4 at a concrete two-wallet batch. -/
theorem C4_rpc_failures_isolated_witness :
    ∃ lines, check_all_wallets ["w1", "w2"] env4 = Except.ok lines ∧
      ∀ w ∈ ["w1", "w2"], ∀ e, (env4 w).fetch = Except.error e →
        OutputLine.errorLine ("Error checking token holding duration: " ++ e) ∈ lines :=
  C4_rpc_failures_isolated ["w1", "w2"] env4 (by
    intro w hw
    fin_cases hw <;> exact ⟨⟨"ok", by decide⟩, ⟨⟨true, true, true, true⟩, by decide⟩⟩)

/-- C10: in check_all_wallets the dictionary reads on the analysis result
never fail: the loop calls analyze_holding_pattern only with a non-empty
holdings list, and on every non-empty input a successful analysis carries
both keys, with quantum_confidence in [0, 1); so no batch run ever ends in
a key lookup error. -/
theorem C10_analysis_keys (k : String) :
    (∀ (wallets : List String) (env : String → WalletEnv),
      check_all_wallets wallets env ≠ Except.error (PyError.keyError k)) ∧
    (∀ (wa : String) (hs : List Holding) (llm : Except String String)
        (sim : Except String SeedOutcome) (a : Analysis),
      hs ≠ [] → analyze_holding_pattern wa hs llm sim = Except.ok a →
      ∃ q, a.quantum_confidence = some q ∧ 0 ≤ q ∧ q < 1) := by
  constructor
  · intro wallets env hcontra
    unfold check_all_wallets at hcontra
    by_cases hemp : wallets.isEmpty
    · rw [if_pos hemp] at hcontra
      cases hcontra
    · rw [if_neg hemp] at hcontra
      obtain ⟨m, hm⟩ := runBatch_error_external wallets env _ hcontra
      cases hm
  · intro wa hs llm sim a hne ha
    exact analyze_conf_some wa hs llm sim a (by simpa using hne) ha

/-- Environment for the C10 witness. -/
def env10 : WalletEnv :=
  { fetch := Except.ok (some [⟨"a", "m", 400, "d"⟩])
    llm := Except.ok "c"
    sim := Except.ok ⟨true, true, false, false⟩
    boostOnes := 50 }

/-- The concrete analysis value for the C10 witness. -/
def a10 : Analysis := ⟨"c", some (1/100)⟩

/-- Witness for C10 at a concrete batch and a concrete analysis call. -/
theorem C10_analysis_keys_witness :
    check_all_wallets ["w"] (fun _ => env10) ≠
      Except.error (PyError.keyError "quantum_confidence") ∧
    ∃ q, a10.quantum_confidence = some q ∧ 0 ≤ q ∧ q < 1 :=
  ⟨(C10_analysis_keys "quantum_confidence").1 ["w"] (fun _ => env10),
   (C10_analysis_keys "quantum_confidence").2 "wa" [⟨"a", "m", 400, "d"⟩]
     (Except.ok "c") (Except.ok ⟨true, true, false, false⟩) a10
     (by simp) (by
        norm_num [analyze_holding_pattern, a10, generate_quantum_seed, entangle, bitsToNat])⟩

end DAIO
